import Mathlib

/-!
Shallow embedding of `src/rich_dictionary_cli/cli.py`.

The program is a single-file dictionary lookup CLI:
- `fetch_word_data` issues one HTTP GET and maps every failure class to a
  printed message plus the Python value `None`;
- `display_word_data` renders the fetched entries as rich panels;
- `main` matches the fetch result into three outcomes.

Modelling conventions:
- Python's `None` and JSON `null` are the same runtime value, so the fetch
  result is a single `Json` value where `Json.null` plays both roles.
- The network is an explicit input `NetOutcome`: the status/body of a
  received response, a transport-level exception, or any other exception
  (the code's final `except Exception` arm).
- Console output is modelled as lists of events appended in program order;
  styling (colors, borders, padding) is dropped, the printed text is kept
  verbatim, with the panel title and body kept separately.
- `dict.get` access is modelled by `Option` fields: `none` is an absent key,
  `Option.getD` is `dict.get(key, default)`; Python truthiness on the
  optional string fields (`if phonetic:`, `if example:`) is `optStrTruthy`.
- All functions are total: the embedding has no exception channel, matching
  the code's contract that no exception escapes `fetch_word_data`.
-/

namespace RichDictionaryCli

/-- Untyped JSON value, the result of `response.json()`. `Json.null` is also
the model of Python `None`, since `json` decodes JSON null to `None`. -/
inductive Json where
  | null
  | bool (b : Bool)
  | num (n : Int)
  | str (s : String)
  | arr (elems : List Json)
  | obj (fields : List (String × Json))

/-- One HTTP request as issued by `client.get(url)` under
`httpx.Client(timeout=5.0)`. -/
structure HttpRequest where
  method : String
  url : String
  timeoutSeconds : Nat
deriving DecidableEq

/-- Environment input to one `fetch_word_data` call: either a response with
its status code and body (the body given as the decoded JSON value, or the
decode-failure detail when the body is not valid JSON), a transport-level
failure (`httpx.RequestError`: DNS, connect, timeout), or any other
unexpected exception (the final `except Exception` arm). -/
inductive NetOutcome where
  | response (status : Nat) (body : Except String Json)
  | transportError (detail : String)
  | otherError (detail : String)

/-- Text printed on HTTP 404 (line 89 of the source). -/
def notFoundMsg (word : String) : String :=
  "Error: Found no definition for \x27" ++ word ++ "\x27."

/-- Text printed on another non-success HTTP status (line 100). -/
def httpErrorMsg (status : Nat) : String :=
  "HTTP-error " ++ toString status ++ ": Could not fetch data."

/-- Text printed on `httpx.RequestError` (line 111); keeps the source's typos. -/
def networkErrorMsg (detail : String) : String :=
  "Network error: An error occured with the connection to th API. (" ++ detail ++ ")"

/-- Text printed on `json.JSONDecodeError` (line 122). -/
def jsonErrorMsg (detail : String) : String :=
  "JSON-error: Error on decoding of API-response. (" ++ detail ++ ")"

/-- Text printed by the final `except Exception` arm (line 133). -/
def unexpectedErrorMsg (detail : String) : String :=
  "Unexpected error: " ++ detail

/-- Text printed by `main` for the wildcard match arm (line 254). -/
def unexpectedFormatMsg (word : String) : String :=
  "Fel: Received an unexpected data-format for \x27" ++ word ++ "\x27."

/-- Observable effect of one `fetch_word_data` call: the requests issued,
the error texts printed to the console in order, and the returned value
(`Json.null` models the Python `None` returned on every failure path). -/
structure FetchEffect where
  requests : List HttpRequest
  printed : List String
  result : Json

/-- Embedding of `fetch_word_data` (source lines 58-137). The URL embeds the
word verbatim in an f-string; `raise_for_status` raises exactly when the
status is outside 200-299; the body is decoded only on success; each
`except` arm prints one message and returns `None`. -/
def fetch_word_data (word : String) (net : NetOutcome) : FetchEffect :=
  let req : HttpRequest :=
    ⟨"GET", "https://api.dictionaryapi.dev/api/v2/entries/en/" ++ word, 5⟩
  match net with
  | .response status body =>
      if 200 ≤ status ∧ status < 300 then
        match body with
        | .ok j => ⟨[req], [], j⟩
        | .error d => ⟨[req], [jsonErrorMsg d], Json.null⟩
      else if status = 404 then ⟨[req], [notFoundMsg word], Json.null⟩
      else ⟨[req], [httpErrorMsg status], Json.null⟩
  | .transportError d => ⟨[req], [networkErrorMsg d], Json.null⟩
  | .otherError d => ⟨[req], [unexpectedErrorMsg d], Json.null⟩

/-- One console-visible event of `main`: an error text printed directly, or
the call `display_word_data(word, result)`. -/
inductive MainOut where
  | msg (text : String)
  | presenter (word : String) (entries : List Json)

/-- Embedding of `main` (source lines 219-262): run the fetch, then the
`match` on the result. `case None` matches Python `None` (our `Json.null`);
`case list() as result if result` matches exactly the non-empty lists; the
wildcard arm prints the unexpected-format text. Returns the console events
in order, paired with the returned exit code. -/
def main (word : String) (net : NetOutcome) : List MainOut × Int :=
  let f := fetch_word_data word net
  let outs := f.printed.map MainOut.msg
  match f.result with
  | Json.null => (outs, 1)
  | Json.arr (e :: rest) => (outs ++ [MainOut.presenter word (e :: rest)], 0)
  | _ => (outs ++ [MainOut.msg (unexpectedFormatMsg word)], 1)

/-- The Presenter invocations among a list of `main` events. -/
def presenterCalls (outs : List MainOut) : List (String × List Json) :=
  outs.filterMap fun o =>
    match o with
    | .presenter w l => some (w, l)
    | _ => none

/-- One dictionary definition as read by the Presenter. Both fields are read
with `dict.get`, so each is an `Option`: `none` models an absent key. -/
structure Definition where
  definition : Option String
  «example» : Option String
deriving DecidableEq

/-- One part-of-speech grouping, fields read with `dict.get`. -/
structure Meaning where
  partOfSpeech : Option String
  definitions : Option (List Definition)
deriving DecidableEq

/-- One top-level word entry. `word` is declared by the source's TypedDict
but never read by the Presenter; `phonetic` and `meanings` are read with
`dict.get`. -/
structure WordEntry where
  word : String
  phonetic : Option String
  meanings : Option (List Meaning)
deriving DecidableEq

/-- Python truthiness of an optional string: `None` and `""` are falsy,
every other string is truthy (`if phonetic:`, `if example:`). -/
def optStrTruthy : Option String → Bool
  | some s => !s.isEmpty
  | none => false

/-- Python `str.upper()` (ASCII case mapping, which covers the source's
inputs). -/
def pyUpper (s : String) : String :=
  String.mk (s.data.map Char.toUpper)

/-- Python `str.capitalize()`: first character uppercased, the rest
lowercased (ASCII case mapping, which covers the source's inputs). -/
def pyCapitalize (s : String) : String :=
  match s.data with
  | [] => ""
  | c :: cs => String.mk (c.toUpper :: cs.map Char.toLower)

/-- Text appended to the panel buffer for the definition numbered `i`
(source lines 186-200): the number line, the definition text with its
missing-key default, then the quoted example line when the example is
truthy. -/
def defLine (i : Nat) (d : Definition) : String :=
  "\n" ++ toString i ++ ". " ++ d.definition.getD "Ingen definition tillgänglig." ++
    (if optStrTruthy d.«example» then
      "\n    Exempel: \"" ++ d.«example».getD "" ++ "\""
    else "")

/-- The panel content buffer built by the source's loop (lines 177-200):
start with the capitalized part of speech as a header line, then append
`defLine` for each definition, numbered from 1 by `enumerate(definitions, 1)`. -/
def panelBody (pos : String) (defs : List Definition) : String :=
  defs.enum.foldl (fun acc p => acc ++ defLine (p.1 + 1) p.2)
    (pyCapitalize pos ++ "\n")

/-- One console-visible event of `display_word_data`: a panel with its title
and content, or a plain printed line. -/
inductive RichOut where
  | panel (title : String) (body : String)
  | line (text : String)
deriving DecidableEq

/-- Body of the loop over `entry.get("meanings", [])` (source lines
171-214): when the definitions list is truthy (non-empty), print one panel
titled with the capitalized part of speech; otherwise print nothing. -/
def meaningStep (out : List RichOut) (m : Meaning) : List RichOut :=
  let pos := m.partOfSpeech.getD "okänd ordklass"
  let defs := m.definitions.getD []
  if defs.isEmpty then out
  else out ++ [RichOut.panel (pyCapitalize pos) (panelBody pos defs)]

/-- Body of the loop over `data` (source lines 164-214): print the inline
phonetic line when `entry.get("phonetic")` is truthy, then run the meanings
loop. -/
def entryStep (out : List RichOut) (e : WordEntry) : List RichOut :=
  let out2 :=
    if optStrTruthy e.phonetic then
      out ++ [RichOut.line ("  Uttal: " ++ e.phonetic.getD "")]
    else out
  (e.meanings.getD []).foldl meaningStep out2

/-- Embedding of `display_word_data` (source lines 140-214): print the
header panel titled "Dictionary search" with the uppercased word, then loop
over the entries. Returns the console events in order. -/
def display_word_data (word : String) (data : List WordEntry) : List RichOut :=
  data.foldl entryStep
    [RichOut.panel "Dictionary search" ("WORD: " ++ pyUpper word)]

/-- The panels a single meaning contributes (the value `meaningStep`
appends), as a list: one panel when the definitions list is non-empty,
nothing otherwise. -/
def meaningPanels (m : Meaning) : List RichOut :=
  let pos := m.partOfSpeech.getD "okänd ordklass"
  let defs := m.definitions.getD []
  if defs.isEmpty then []
  else [RichOut.panel (pyCapitalize pos) (panelBody pos defs)]

/-- The inline phonetic line an entry contributes, as a list. -/
def phoneticLines (e : WordEntry) : List RichOut :=
  if optStrTruthy e.phonetic then
    [RichOut.line ("  Uttal: " ++ e.phonetic.getD "")]
  else []

/-- Everything a single entry contributes to the display, in order: its
phonetic line (when truthy), then its meanings' panels in array order. -/
def entryOut (e : WordEntry) : List RichOut :=
  phoneticLines e ++ (e.meanings.getD []).flatMap meaningPanels

/-- The numbered definition texts of a panel, in array order, numbered
from 1. -/
def numberedDefs (defs : List Definition) : List String :=
  defs.enum.map fun p => defLine (p.1 + 1) p.2

/-- Concatenation of a list of strings, in order. -/
def concatAll (l : List String) : String := l.foldr (· ++ ·) ""

/-! ### Helper lemmas -/

/-- A fold whose step only appends fresh output is the initial output
followed by the per-element output in list order. -/
theorem foldl_emit {α β : Type} (h : List β → α → List β) (g : α → List β)
    (hg : ∀ out x, h out x = out ++ g x) :
    ∀ (l : List α) (init : List β), l.foldl h init = init ++ l.flatMap g
  | [], init => by simp
  | x :: xs, init => by
      rw [List.foldl_cons, hg, foldl_emit h g hg xs]
      simp

/-- The meanings-loop body appends exactly the meaning's panels. -/
theorem meaningStep_emit (out : List RichOut) (m : Meaning) :
    meaningStep out m = out ++ meaningPanels m := by
  simp only [meaningStep, meaningPanels]
  split
  · simp
  · rfl

/-- The entries-loop body appends exactly the entry's output. -/
theorem entryStep_emit (out : List RichOut) (e : WordEntry) :
    entryStep out e = out ++ entryOut e := by
  simp only [entryStep, entryOut, phoneticLines]
  rw [foldl_emit meaningStep meaningPanels meaningStep_emit]
  split
  · rw [List.append_assoc]
  · simp

/-- The display output is the header panel followed by each entry's output
in array order. -/
theorem display_eq (word : String) (data : List WordEntry) :
    display_word_data word data =
      RichOut.panel "Dictionary search" ("WORD: " ++ pyUpper word) ::
        data.flatMap entryOut := by
  unfold display_word_data
  rw [foldl_emit entryStep entryOut entryStep_emit]
  rfl

/-- A fold that appends strings equals the initial string followed by the
concatenation of the per-element strings. -/
theorem foldl_concat {α : Type} (g : α → String) :
    ∀ (l : List α) (init : String),
      l.foldl (fun acc x => acc ++ g x) init = init ++ concatAll (l.map g)
  | [], init => by simp [concatAll]
  | x :: xs, init => by
      rw [List.foldl_cons, foldl_concat g xs]
      simp [concatAll, String.append_assoc]

/-- The panel body is the capitalized header line followed by the numbered
definition texts in array order. -/
theorem panelBody_eq (pos : String) (defs : List Definition) :
    panelBody pos defs =
      pyCapitalize pos ++ "\n" ++ concatAll (numberedDefs defs) := by
  unfold panelBody numberedDefs
  rw [foldl_concat]

/-- The k-th numbered definition text is `defLine` of the k-th definition
with number `k + 1`: numbering is sequential from 1 in array order. -/
theorem numberedDefs_getElem (defs : List Definition) (k : Nat) :
    (numberedDefs defs)[k]? = (defs[k]?).map fun d => defLine (k + 1) d := by
  unfold numberedDefs
  rw [List.getElem?_map, List.getElem?_enum]
  cases defs[k]? <;> rfl

/-- Printed error texts are never Presenter calls. -/
theorem presenterCalls_map_msg (l : List String) :
    presenterCalls (l.map MainOut.msg) = [] := by
  simp [presenterCalls]

/-- The Presenter calls in a concatenation of outputs. -/
theorem presenterCalls_append (a b : List MainOut) :
    presenterCalls (a ++ b) = presenterCalls a ++ presenterCalls b := by
  simp [presenterCalls]

/-! ### Claim theorems -/

/-- C1: `main` is a three-outcome state machine on the fetch result: `None`
gives exit code 1 with no Presenter call; a non-empty list gives exactly one
Presenter call on that list and exit code 0; anything else (an empty list,
or a non-list value) prints the unexpected-data-format text for the word and
gives exit code 1 with no Presenter call. -/
theorem main_three_outcome_state_machine (word : String) (net : NetOutcome) :
    ((fetch_word_data word net).result = Json.null →
      (main word net).2 = 1 ∧ presenterCalls (main word net).1 = []) ∧
    (∀ e rest, (fetch_word_data word net).result = Json.arr (e :: rest) →
      (main word net).2 = 0 ∧
      presenterCalls (main word net).1 = [(word, e :: rest)]) ∧
    ((fetch_word_data word net).result ≠ Json.null →
      (∀ l, (fetch_word_data word net).result = Json.arr l → l = []) →
      (main word net).2 = 1 ∧
      MainOut.msg (unexpectedFormatMsg word) ∈ (main word net).1 ∧
      presenterCalls (main word net).1 = []) := by
  refine ⟨?_, ?_, ?_⟩
  · intro h
    simp [main, h, presenterCalls_map_msg]
  · intro e rest h
    simp [main, h, presenterCalls_append, presenterCalls_map_msg, presenterCalls]
  · intro hnull harr
    rcases hr : (fetch_word_data word net).result with _ | b | n | s | elems | fields
    · exact absurd hr hnull
    · simp [main, hr, presenterCalls_append, presenterCalls_map_msg, presenterCalls]
    · simp [main, hr, presenterCalls_append, presenterCalls_map_msg, presenterCalls]
    · simp [main, hr, presenterCalls_append, presenterCalls_map_msg, presenterCalls]
    · cases elems with
      | nil =>
          simp [main, hr, presenterCalls_append, presenterCalls_map_msg,
            presenterCalls]
      | cons e rest => exact absurd (harr _ hr) (by simp)
    · simp [main, hr, presenterCalls_append, presenterCalls_map_msg, presenterCalls]

/-- Witness for C1: the three outcomes at concrete inputs (a transport
failure, a one-element list body, and an empty-list body). -/
theorem main_three_outcome_state_machine_witness :
    ((main "cat" (.transportError "down")).2 = 1 ∧
      presenterCalls (main "cat" (.transportError "down")).1 = []) ∧
    ((main "cat" (.response 200 (.ok (Json.arr [Json.obj []])))).2 = 0 ∧
      presenterCalls (main "cat" (.response 200 (.ok (Json.arr [Json.obj []])))).1 =
        [("cat", [Json.obj []])]) ∧
    ((main "cat" (.response 200 (.ok (Json.arr [])))).2 = 1 ∧
      MainOut.msg (unexpectedFormatMsg "cat") ∈
        (main "cat" (.response 200 (.ok (Json.arr [])))).1 ∧
      presenterCalls (main "cat" (.response 200 (.ok (Json.arr [])))).1 = []) :=
  ⟨(main_three_outcome_state_machine "cat" (.transportError "down")).1 rfl,
   (main_three_outcome_state_machine "cat"
      (.response 200 (.ok (Json.arr [Json.obj []])))).2.1 (Json.obj []) [] rfl,
   (main_three_outcome_state_machine "cat" (.response 200 (.ok (Json.arr [])))).2.2
      (by simp [fetch_word_data])
      (fun l hl => by
        simpa [fetch_word_data] using hl.symm)⟩

/-- C2: on a non-success status the fetch prints exactly one message — the
no-definition-found text for the word when the status is 404, the HTTP-error
text carrying the actual status code otherwise — and returns `None`. -/
theorem fetch_non_success_messages (word : String) (status : Nat)
    (body : Except String Json) :
    (status = 404 →
      (fetch_word_data word (.response status body)).printed = [notFoundMsg word] ∧
      (fetch_word_data word (.response status body)).result = Json.null) ∧
    (¬(200 ≤ status ∧ status < 300) → status ≠ 404 →
      (fetch_word_data word (.response status body)).printed = [httpErrorMsg status] ∧
      (fetch_word_data word (.response status body)).result = Json.null) := by
  constructor
  · rintro rfl
    simp [fetch_word_data]
  · intro h h4
    simp [fetch_word_data, h, h4]

/-- Witness for C2: statuses 404 and 500. -/
theorem fetch_non_success_messages_witness :
    ((fetch_word_data "cat" (.response 404 (.ok Json.null))).printed =
        [notFoundMsg "cat"] ∧
      (fetch_word_data "cat" (.response 404 (.ok Json.null))).result = Json.null) ∧
    ((fetch_word_data "cat" (.response 500 (.ok Json.null))).printed =
        [httpErrorMsg 500] ∧
      (fetch_word_data "cat" (.response 500 (.ok Json.null))).result = Json.null) :=
  ⟨(fetch_non_success_messages "cat" 404 (.ok Json.null)).1 rfl,
   (fetch_non_success_messages "cat" 500 (.ok Json.null)).2 (by decide) (by decide)⟩

/-- C3: every failure class is converted to `None` after printing its
message: a transport failure prints the network-error text, an invalid-JSON
body on a success status prints the JSON-error text, and any other
unexpected exception prints the unexpected-error text with its detail. The
embedding is a total function, so no exception escapes the fetch boundary. -/
theorem fetch_failure_paths (word : String) (status : Nat) (d : String) :
    ((fetch_word_data word (.transportError d)).printed = [networkErrorMsg d] ∧
      (fetch_word_data word (.transportError d)).result = Json.null) ∧
    (200 ≤ status → status < 300 →
      (fetch_word_data word (.response status (.error d))).printed = [jsonErrorMsg d] ∧
      (fetch_word_data word (.response status (.error d))).result = Json.null) ∧
    ((fetch_word_data word (.otherError d)).printed = [unexpectedErrorMsg d] ∧
      (fetch_word_data word (.otherError d)).result = Json.null) := by
  refine ⟨⟨rfl, rfl⟩, ?_, ⟨rfl, rfl⟩⟩
  intro h1 h2
  simp [fetch_word_data, h1, h2]

/-- Witness for C3: the JSON-error branch at status 200. -/
theorem fetch_failure_paths_witness :
    (fetch_word_data "cat" (.response 200 (.error "bad json"))).printed =
      [jsonErrorMsg "bad json"] ∧
    (fetch_word_data "cat" (.response 200 (.error "bad json"))).result = Json.null :=
  (fetch_failure_paths "cat" 200 "bad json").2.1 (by decide) (by decide)

/-- C4: on a success status with a valid-JSON body, the fetch prints nothing
and returns the decoded value unchanged, whatever its shape: no validation
of the decoded value happens in the fetch. -/
theorem fetch_success_returns_body (word : String) (status : Nat) (j : Json)
    (h1 : 200 ≤ status) (h2 : status < 300) :
    (fetch_word_data word (.response status (.ok j))).printed = [] ∧
    (fetch_word_data word (.response status (.ok j))).result = j := by
  simp [fetch_word_data, h1, h2]

/-- Witness for C4: status 200 with an empty-array body. -/
theorem fetch_success_returns_body_witness :
    (fetch_word_data "cat" (.response 200 (.ok (Json.arr [])))).printed = [] ∧
    (fetch_word_data "cat" (.response 200 (.ok (Json.arr [])))).result =
      Json.arr [] :=
  fetch_success_returns_body "cat" 200 (Json.arr []) (by decide) (by decide)

/-- C8: whatever the network does, the fetch issues exactly one request: a
GET on the fixed host and path template with the word embedded verbatim,
under a 5-second timeout. -/
theorem fetch_issues_single_get (word : String) (net : NetOutcome) :
    (fetch_word_data word net).requests =
      [⟨"GET", "https://api.dictionaryapi.dev/api/v2/entries/en/" ++ word, 5⟩] := by
  cases net with
  | response status body => cases body <;> simp only [fetch_word_data] <;> split_ifs <;> rfl
  | transportError d => rfl
  | otherError d => rfl

/-- C5: a meaning with a non-empty definitions list yields exactly one
panel, titled with the capitalized part of speech; its body is the
capitalized part of speech as a header line followed by the definition
texts numbered sequentially from 1 in array order; a definition with a
non-empty example gets the indented quoted example line; a meaning with an
empty definitions list yields nothing. -/
theorem presenter_one_panel_per_meaning (m : Meaning) (out : List RichOut) :
    (m.definitions.getD [] = [] → meaningStep out m = out) ∧
    (m.definitions.getD [] ≠ [] →
      meaningStep out m =
        out ++ [RichOut.panel (pyCapitalize (m.partOfSpeech.getD "okänd ordklass"))
          (pyCapitalize (m.partOfSpeech.getD "okänd ordklass") ++ "\n" ++
            concatAll (numberedDefs (m.definitions.getD [])))]) ∧
    (∀ k, (numberedDefs (m.definitions.getD []))[k]? =
      ((m.definitions.getD [])[k]?).map fun d => defLine (k + 1) d) ∧
    (∀ (i : Nat) (dfn : Option String) (ex : String), ex ≠ "" →
      defLine i ⟨dfn, some ex⟩ =
        "\n" ++ toString i ++ ". " ++ dfn.getD "Ingen definition tillgänglig." ++
          "\n    Exempel: \"" ++ ex ++ "\"") := by
  refine ⟨?_, ?_, fun k => numberedDefs_getElem _ k, ?_⟩
  · intro h
    rw [meaningStep_emit]
    simp [meaningPanels, h]
  · intro h
    rw [meaningStep_emit]
    simp only [meaningPanels, panelBody_eq]
    rw [if_neg (by simpa [List.isEmpty_iff] using h)]
  · intro i dfn ex hex
    have he : ex.isEmpty = false := by
      cases h' : ex.isEmpty
      · rfl
      · exact absurd ((String.isEmpty_iff ex).mp h') hex
    simp [defLine, optStrTruthy, he, String.append_assoc]

/-- Witness for C5: the spec's fixture meaning produces exactly the panel
titled "Noun" with the numbered definition and the quoted example, and the
empty-definitions meaning produces nothing. -/
theorem presenter_one_panel_per_meaning_witness :
    meaningStep [] (⟨some "noun", some []⟩ : Meaning) = [] ∧
    meaningStep []
        (⟨some "noun", some [⟨some "a test", some "this is an example"⟩]⟩ : Meaning) =
      [RichOut.panel "Noun" "Noun\n\n1. a test\n    Exempel: \"this is an example\""] ∧
    defLine 1 ⟨some "a test", some "this is an example"⟩ =
      "\n1. a test\n    Exempel: \"this is an example\"" := by
  refine ⟨(presenter_one_panel_per_meaning ⟨some "noun", some []⟩ []).1 rfl, ?_, ?_⟩
  · rw [(presenter_one_panel_per_meaning
      ⟨some "noun", some [⟨some "a test", some "this is an example"⟩]⟩ []).2.1
      (by decide)]
    rfl
  · rw [(presenter_one_panel_per_meaning ⟨none, none⟩ []).2.2.2 1 (some "a test")
      "this is an example" (by decide)]
    rfl

/-- C6: the displayed output mirrors the input order exactly: the header
panel, then each entry's output in array order; within an entry, the
phonetic line then the meanings' panels in array order; within a panel, the
definition texts in array order, the k-th one numbered k + 1. Nothing is
sorted, deduplicated, or filtered by part of speech, and this holds for
every input list, hence for every permutation of any fixture. -/
theorem display_mirrors_input_order (word : String) (data : List WordEntry) :
    display_word_data word data =
      RichOut.panel "Dictionary search" ("WORD: " ++ pyUpper word) ::
        data.flatMap entryOut ∧
    (∀ e, entryOut e =
      phoneticLines e ++ (e.meanings.getD []).flatMap meaningPanels) ∧
    (∀ pos defs, panelBody pos defs =
      pyCapitalize pos ++ "\n" ++ concatAll (numberedDefs defs)) ∧
    (∀ (defs : List Definition) (k : Nat),
      (numberedDefs defs)[k]? = (defs[k]?).map fun d => defLine (k + 1) d) :=
  ⟨display_eq word data, fun _ => rfl, panelBody_eq, numberedDefs_getElem⟩

/-- C7: the first printed event is always the single header panel titled
"Dictionary search" containing the uppercased word, and an entry whose
phonetic transcription is present (a non-empty string, the code's
truthiness test) contributes its inline phonetic line before its meaning
panels. -/
theorem display_header_then_phonetic (word : String) (data : List WordEntry) :
    (display_word_data word data).head? =
      some (RichOut.panel "Dictionary search" ("WORD: " ++ pyUpper word)) ∧
    (∀ (w ph : String) (ms : Option (List Meaning)), ph ≠ "" →
      entryOut ⟨w, some ph, ms⟩ =
        RichOut.line ("  Uttal: " ++ ph) :: (ms.getD []).flatMap meaningPanels) := by
  constructor
  · rw [display_eq]
    rfl
  · intro w ph ms h
    have he : ph.isEmpty = false := by
      cases h' : ph.isEmpty
      · rfl
      · exact absurd ((String.isEmpty_iff ph).mp h') h
    simp [entryOut, phoneticLines, optStrTruthy, he]

/-- Witness for C7: an empty entry list still prints the header first, and
a concrete entry with a phonetic transcription puts its phonetic line ahead
of its (empty) panel list. -/
theorem display_header_then_phonetic_witness :
    (display_word_data "cat" []).head? =
      some (RichOut.panel "Dictionary search" "WORD: CAT") ∧
    entryOut ⟨"cat", some "/kat/", none⟩ = [RichOut.line "  Uttal: /kat/"] := by
  constructor
  · rw [(display_header_then_phonetic "cat" []).1]
    rfl
  · rw [(display_header_then_phonetic "cat" []).2 "cat" "/kat/" none (by decide)]
    rfl

/-- C9: missing optional keys never make the display fail (the embedding is
a total function); each one falls back to its defined default: no phonetic
key gives no phonetic line, no meanings key gives no panels for the entry,
no partOfSpeech key behaves as the default label, no definition key shows
the default definition text, and no example key gives no example line. -/
theorem display_missing_keys_defaults :
    (∀ (w : String) (ms : Option (List Meaning)),
      phoneticLines ⟨w, none, ms⟩ = []) ∧
    (∀ (out : List RichOut) (w : String) (p : Option String),
      entryStep out ⟨w, p, none⟩ = out ++ phoneticLines ⟨w, p, none⟩) ∧
    (∀ (out : List RichOut) (ds : Option (List Definition)),
      meaningStep out ⟨none, ds⟩ = meaningStep out ⟨some "okänd ordklass", ds⟩) ∧
    (∀ (i : Nat) (ex : Option String),
      defLine i ⟨none, ex⟩ = defLine i ⟨some "Ingen definition tillgänglig.", ex⟩) ∧
    (∀ (i : Nat) (dfn : Option String),
      defLine i ⟨dfn, none⟩ =
        "\n" ++ toString i ++ ". " ++ dfn.getD "Ingen definition tillgänglig.") := by
  refine ⟨fun w ms => rfl, ?_, fun out ds => rfl, fun i ex => rfl, ?_⟩
  · intro out w p
    rw [entryStep_emit]
    simp [entryOut]
  · intro i dfn
    simp [defLine, optStrTruthy]

/-- C10: a phonetic key present with the empty string displays exactly as a
missing phonetic key, anywhere in the entry list, and an example key present
with the empty string produces the same definition line as a missing example
key: empty strings are indistinguishable from absence in the output. -/
theorem display_empty_string_like_missing :
    (∀ (word : String) (pre post : List WordEntry) (w : String)
        (ms : Option (List Meaning)),
      display_word_data word (pre ++ ⟨w, some "", ms⟩ :: post) =
        display_word_data word (pre ++ ⟨w, none, ms⟩ :: post)) ∧
    (∀ (i : Nat) (dfn : Option String),
      defLine i ⟨dfn, some ""⟩ = defLine i ⟨dfn, none⟩) := by
  constructor
  · intro word pre post w ms
    have h : entryOut ⟨w, some "", ms⟩ = entryOut ⟨w, none, ms⟩ := rfl
    rw [display_eq, display_eq, List.flatMap_append, List.flatMap_append,
      List.flatMap_cons, List.flatMap_cons, h]
  · intro i dfn
    rfl

end RichDictionaryCli
